import Mathlib

/-!
Verification development for the FloorPoV recording session orchestrator
(src-tauri/src/recording.rs and the recording/ module tree).

The Rust code is shallowly embedded: pure decision logic is translated
directly; OS-effectful primitives (Win32 window queries, window enumeration,
filesystem metadata, the FFmpeg child process and loopback audio device) are
modelled as explicit environment records whose fields hold the results those
primitives would return, so every embedded function is a pure, executable
function of its inputs and an environment.
-/

namespace FloorPoV

/-- Availability classification of the selected capture window
(recording.rs, enum WindowCaptureAvailability). -/
inductive WindowCaptureAvailability where
  | Available
  | Minimized
  | Closed
deriving DecidableEq, Repr

/-- Runtime capture mode of a segment (recording.rs, enum RuntimeCaptureMode). -/
inductive RuntimeCaptureMode where
  | Monitor
  | Window
  | Black
deriving DecidableEq, Repr

/-- Transition requested by a finished segment
(recording.rs, enum SegmentTransition). -/
inductive SegmentTransition where
  | Stop
  | Switch (mode : RuntimeCaptureMode)
  | RestartSameMode
deriving DecidableEq, Repr

/-- The capture input resolved at session start (recording.rs, enum CaptureInput).
A window handle (HWND) is modelled as a Nat. -/
inductive CaptureInput where
  | Monitor
  | Window (input_target : String) (window_hwnd : Option Nat)
      (window_title : Option String)
deriving DecidableEq, Repr

/-- One entry of the capturable-window list
(recording.rs, struct CaptureWindowInfo): the handle is stringified. -/
structure CaptureWindowInfo where
  hwnd : String
  title : String
deriving DecidableEq, Repr

/-- A resolved window capture region (recording.rs, struct WindowCaptureRegion). -/
structure WindowCaptureRegion where
  output_idx : Nat
  offset_x : Int
  offset_y : Int
  width : Nat
  height : Nat
deriving DecidableEq, Repr

/-- Environment holding the results of the Win32 primitives the availability
probe consults: IsWindow, IsIconic, the window enumeration
(list_capture_windows_internal) and the full region resolution
(resolve_window_capture_region, whose body is a chain of Win32 monitor and
client-rectangle queries and is therefore modelled by its outcome). -/
structure WinEnv where
  isWindow : Nat → Bool
  isIconic : Nat → Bool
  enumResult : Except String (List CaptureWindowInfo)
  regionResolve : CaptureInput → Except String WindowCaptureRegion

/-- recording.rs, fn parse_window_handle: trim, parse as usize, reject 0. -/
def parse_window_handle (raw_hwnd : String) : Option Nat :=
  (raw_hwnd.trim.toNat?).filter (fun hwnd => hwnd ≠ 0)

/-- recording.rs, fn normalize_optional_setting: trim and drop empty values. -/
def normalize_optional_setting (value : Option String) : Option String :=
  (value.map String.trim).filter (fun item => item ≠ "")

/-- recording.rs, fn evaluate_window_capture_by_hwnd. -/
def evaluate_window_capture_by_hwnd (env : WinEnv) (window_hwnd : Nat) :
    WindowCaptureAvailability :=
  if env.isWindow window_hwnd = false then .Closed
  else if env.isIconic window_hwnd then .Minimized
  else .Available

/-- The scan loop inside evaluate_window_capture_by_title: walk the windows
matching the title, return Available on the first available one, remember
whether a minimized match was seen. -/
def evaluate_title_scan (env : WinEnv) :
    List CaptureWindowInfo → Bool → WindowCaptureAvailability
  | [], found_minimized_window =>
      if found_minimized_window then .Minimized else .Closed
  | w :: rest, found_minimized_window =>
      match parse_window_handle w.hwnd with
      | none => evaluate_title_scan env rest found_minimized_window
      | some window_hwnd =>
          match evaluate_window_capture_by_hwnd env window_hwnd with
          | .Available => .Available
          | .Minimized => evaluate_title_scan env rest true
          | .Closed => evaluate_title_scan env rest found_minimized_window

/-- recording.rs, fn evaluate_window_capture_by_title: when the window
enumeration itself fails, the probe reports Available. -/
def evaluate_window_capture_by_title (env : WinEnv) (window_title : String) :
    WindowCaptureAvailability :=
  match env.enumResult with
  | .error _ => .Available
  | .ok available_windows =>
      evaluate_title_scan env
        (available_windows.filter (fun w => w.title = window_title)) false

/-- recording.rs, fn evaluate_window_capture_availability. -/
def evaluate_window_capture_availability (env : WinEnv)
    (capture_input : CaptureInput) : WindowCaptureAvailability :=
  match capture_input with
  | .Window _ (some window_hwnd) window_title =>
      let availability := evaluate_window_capture_by_hwnd env window_hwnd
      if availability = .Closed then
        match window_title with
        | some title => evaluate_window_capture_by_title env title
        | none => availability
      else availability
  | .Window _ none (some window_title) =>
      evaluate_window_capture_by_title env window_title
  | .Window _ none none => .Closed
  | .Monitor => .Available

/-- recording.rs, fn find_window_handle_by_title. -/
def find_window_handle_by_title (env : WinEnv) (window_title : String) :
    Option Nat :=
  match env.enumResult with
  | .error _ => none
  | .ok available_windows =>
      (available_windows.find? (fun w => w.title = window_title)).bind
        (fun w => parse_window_handle w.hwnd)

/-- recording.rs, fn resolve_window_handle. -/
def resolve_window_handle (env : WinEnv) (capture_input : CaptureInput) :
    Option Nat :=
  match capture_input with
  | .Window _ (some window_hwnd) window_title =>
      if evaluate_window_capture_by_hwnd env window_hwnd ≠ .Closed then
        some window_hwnd
      else
        window_title.bind (fun title => find_window_handle_by_title env title)
  | .Window _ none (some window_title) =>
      find_window_handle_by_title env window_title
  | _ => none

/-- The availability-tick transition decision of the monolithic poll loop
(recording.rs, run_ffmpeg_recording_segment, the requested_transition match):
a Window segment seeing non-Available requests Black; a Black segment seeing
Available requests Window. No region or handle resolution is consulted. -/
def poll_requested_transition (runtime_capture_mode : RuntimeCaptureMode)
    (capture_availability : WindowCaptureAvailability) :
    Option RuntimeCaptureMode :=
  match runtime_capture_mode with
  | .Window =>
      if capture_availability ≠ .Available then some .Black else none
  | .Black =>
      if capture_availability = .Available then some .Window else none
  | .Monitor => none

/-- The availability-tick transition decision of the refactored poll loop
(recording/session/segment_runner.rs, run_segment_poll_loop): the Black case
additionally requires a successful window-handle resolution
(resolve_window_capture_handle; its in-src analogue is resolve_window_handle). -/
def poll_requested_transition_runner (env : WinEnv)
    (runtime_capture_mode : RuntimeCaptureMode) (capture_input : CaptureInput)
    (capture_availability : WindowCaptureAvailability) :
    Option RuntimeCaptureMode :=
  match runtime_capture_mode with
  | .Window =>
      if capture_availability ≠ .Available then some .Black else none
  | .Black =>
      if capture_availability = .Available then
        match resolve_window_handle env capture_input with
        | some _ => some .Window
        | none => none
      else none
  | .Monitor => none

/-- The exit classification shared by recording.rs (run_ffmpeg_recording_segment
tail) and recording/session/segment_runner.rs (determine_segment_transition):
user stop wins, then a pre-recorded switch, then RestartSameMode on success;
on failure the transition is derived from the current availability alone. -/
def determine_segment_transition (env : WinEnv)
    (runtime_capture_mode : RuntimeCaptureMode) (capture_input : CaptureInput)
    (stop_requested_by_user : Bool)
    (requested_transition : Option RuntimeCaptureMode)
    (ffmpeg_succeeded : Bool) : SegmentTransition :=
  if stop_requested_by_user then .Stop
  else
    match requested_transition with
    | some next_mode => .Switch next_mode
    | none =>
        if ffmpeg_succeeded then .RestartSameMode
        else
          match runtime_capture_mode with
          | .Window =>
              if evaluate_window_capture_availability env capture_input
                  ≠ .Available then
                .Switch .Black
              else .RestartSameMode
          | .Black =>
              if evaluate_window_capture_availability env capture_input
                  = .Available then
                .Switch .Window
              else .RestartSameMode
          | .Monitor => .Stop

/-- Modelled from the spec: the settings record consumed by start_recording
(settings.rs, struct RecordingSettings, is not part of this tree; the fields
are the ones recording.rs reads and the spec lists in its external-interfaces
section). -/
structure RecordingSettings where
  capture_source : String
  capture_window_hwnd : Option String
  capture_window_title : Option String
  frame_rate : Nat
  bitrate : Nat
  video_quality : String
  enable_system_audio : Bool
  enable_recording_diagnostics : Bool
deriving DecidableEq, Repr

/-- recording.rs, fn resolve_capture_input: maps the settings record to a
CaptureInput. An unknown capture_source value logs a warning and falls back
to primary-monitor capture. -/
def resolve_capture_input (env : WinEnv) (settings : RecordingSettings) :
    Except String CaptureInput :=
  if settings.capture_source = "monitor" then .ok .Monitor
  else if settings.capture_source = "window" then
    let requested_hwnd := normalize_optional_setting settings.capture_window_hwnd
    let requested_title := normalize_optional_setting settings.capture_window_title
    if requested_hwnd = none ∧ requested_title = none then
      .error "Select a window in Settings before starting a window capture recording."
    else
      match env.enumResult with
      | .error e => .error ("Failed to list capturable windows: " ++ e)
      | .ok available_windows =>
          match requested_hwnd with
          | some hwnd =>
              if available_windows.any (fun w => w.hwnd = hwnd) then
                .ok (.Window ("hwnd=" ++ hwnd) (parse_window_handle hwnd)
                  requested_title)
              else
                match requested_title with
                | some title =>
                    match available_windows.find? (fun w => w.title = title) with
                    | some matching_window =>
                        .ok (.Window ("hwnd=" ++ matching_window.hwnd)
                          (parse_window_handle matching_window.hwnd) (some title))
                    | none =>
                        .ok (.Window ("title=" ++ title) none (some title))
                | none =>
                    .error "The selected window is no longer available. Open Settings and choose another window."
          | none =>
              match requested_title with
              | some title =>
                  match available_windows.find? (fun w => w.title = title) with
                  | some matching_window =>
                      .ok (.Window ("hwnd=" ++ matching_window.hwnd)
                        (parse_window_handle matching_window.hwnd) (some title))
                  | none =>
                      .ok (.Window ("title=" ++ title) none (some title))
              | none =>
                  .error "Select a window in Settings before starting a window capture recording."
  else .ok .Monitor

/-- recording.rs, const FFMPEG_STOP_TIMEOUT (Duration::from_secs(5)), in
milliseconds. -/
def FFMPEG_STOP_TIMEOUT_MS : Nat := 5000

/-- The hard-kill deadline the monolithic poll loop applies once a graceful
stop has been requested (recording.rs, run_ffmpeg_recording_segment: the
elapsed check against FFMPEG_STOP_TIMEOUT). The check reads neither
stop_requested_by_user nor requested_transition: the same constant deadline
applies to user stops and to mode-switch stops. -/
def stop_timeout_ms_for (_stop_requested_by_user : Bool)
    (_requested_transition : Option RuntimeCaptureMode) : Nat :=
  FFMPEG_STOP_TIMEOUT_MS

/-- recording.rs, run_ffmpeg_recording_segment: the per-tick hard-kill
decision. kill() is sent when a stop was requested, no kill was sent yet and
the elapsed time reached the stop timeout. -/
def should_hard_kill (stop_requested_by_user : Bool)
    (requested_transition : Option RuntimeCaptureMode) (kill_sent : Bool)
    (elapsed_ms : Nat) : Bool :=
  !kill_sent
    && decide (stop_timeout_ms_for stop_requested_by_user requested_transition
      ≤ elapsed_ms)

/-- recording.rs, start_recording: the session bitrate handed to the segment
loop. The settings-derived effective bitrate is taken as given (settings.rs
is outside this tree); with system audio enabled it is capped to 16 Mb/s. -/
def session_bitrate (effective_bitrate : Nat) (enable_system_audio : Bool) :
    Nat :=
  if enable_system_audio then min effective_bitrate 16000000
  else effective_bitrate

/-- recording.rs, spawn_ffmpeg_recording_task: the bitrate argument is passed
unchanged to run_ffmpeg_recording_segment on every loop iteration, so each
segment of the session encodes at the same session bitrate. -/
def segment_bitrate (bitrate : Nat) (_segment_index : Nat) : Nat :=
  bitrate

/-- recording.rs, struct RecordingState: the process-wide recording state.
The tokio stop channel sender is modelled by its presence. -/
structure RecordingState where
  is_recording : Bool
  is_stopping : Bool
  current_output_path : Option String
  stop_tx_present : Bool
deriving DecidableEq, Repr

/-- Result of one stop_recording call: the returned value, the state left
behind, and whether a stop signal was sent into the session channel. -/
structure StopCallResult where
  result : Except String String
  state : RecordingState
  signal_sent : Bool
deriving Repr

/-- recording.rs, fn stop_recording: errors when no recording is active or no
output path is stored; returns the current output path without touching the
state or the channel when the session is already stopping; otherwise flips
is_stopping, takes the stop sender and signals it. -/
def stop_recording (s : RecordingState) : StopCallResult :=
  if s.is_recording = false then
    ⟨.error "No active recording to stop", s, false⟩
  else
    match s.current_output_path with
    | none => ⟨.error "No output path found", s, false⟩
    | some output_path =>
        if s.is_stopping then ⟨.ok output_path, s, false⟩
        else
          ⟨.ok output_path,
            { s with is_stopping := true, stop_tx_present := false },
            s.stop_tx_present⟩

/-- recording.rs, struct SegmentRunResult (the monolithic form). -/
structure SegmentRunResult where
  transition : SegmentTransition
  ffmpeg_succeeded : Bool
  output_written : Bool
deriving DecidableEq, Repr

/-- The session main loop of recording.rs, spawn_ffmpeg_recording_task,
abstracted over the sequence of segment results the environment produces:
returns how many segments were run. After each result the consecutive-failure
counter is reset to 0 on success and incremented on failure; reaching 3 breaks
the loop before the transition is applied; Stop breaks; Switch and
RestartSameMode continue (RestartSameMode breaks in Monitor mode). An empty
remainder means the environment was exhausted with the session still live. -/
def session_segments_run :
    RuntimeCaptureMode → Nat → List SegmentRunResult → Nat
  | _, _, [] => 0
  | runtime_capture_mode, consecutive_segment_failures, run_result :: rest =>
      let failures :=
        if run_result.ffmpeg_succeeded then 0
        else consecutive_segment_failures + 1
      if 3 ≤ failures then 1
      else
        match run_result.transition with
        | .Stop => 1
        | .Switch next_runtime_capture_mode =>
            1 + session_segments_run next_runtime_capture_mode failures rest
        | .RestartSameMode =>
            if runtime_capture_mode = .Monitor then 1
            else 1 + session_segments_run runtime_capture_mode failures rest

/-- The runtime mode in force after applying a segment result transition
(recording.rs, spawn_ffmpeg_recording_task main loop). -/
def mode_after (runtime_capture_mode : RuntimeCaptureMode)
    (run_result : SegmentRunResult) : RuntimeCaptureMode :=
  match run_result.transition with
  | .Switch next_runtime_capture_mode => next_runtime_capture_mode
  | _ => runtime_capture_mode

/-- A segment result whose transition lets the session loop continue in the
given mode: not Stop, and not RestartSameMode while in Monitor mode. -/
def session_continues (runtime_capture_mode : RuntimeCaptureMode)
    (run_result : SegmentRunResult) : Prop :=
  run_result.transition ≠ .Stop ∧
    (run_result.transition = .RestartSameMode →
      runtime_capture_mode ≠ .Monitor)

/-- recording/audio_pipeline.rs (and recording.rs), struct AudioPipelineStats:
the four diagnostic counters, here as plain Nats (the Rust code uses relaxed
atomics read for diagnostics only). -/
structure AudioPipelineStats where
  queued_chunks : Nat
  dequeued_chunks : Nat
  dropped_chunks : Nat
  write_timeouts : Nat
deriving DecidableEq, Repr

/-- recording.rs, const SYSTEM_AUDIO_QUEUE_CAPACITY: capacity of the bounded
sync_channel between the capture worker and the writer worker. -/
def SYSTEM_AUDIO_QUEUE_CAPACITY : Nat := 256

/-- Pointwise order on the audio counters: each counter of the left state is
at most the corresponding counter of the right state. -/
def statsLe (a b : AudioPipelineStats) : Prop :=
  a.queued_chunks ≤ b.queued_chunks ∧
    a.dequeued_chunks ≤ b.dequeued_chunks ∧
    a.dropped_chunks ≤ b.dropped_chunks ∧
    a.write_timeouts ≤ b.write_timeouts

/-- Joint state of the two audio workers and the bounded queue between them.
Chunks are identified by Nat ids; queue holds the chunks currently buffered in
the sync_channel (front = oldest); written holds the chunks whose bytes were
fully written to the TCP sink; writer_failed records that the writer worker
returned a fatal write error. -/
structure AudioPipelineState where
  stats : AudioPipelineStats
  queue : List Nat
  written : List Nat
  writer_failed : Bool
deriving DecidableEq, Repr

/-- Outcome of one writer.write_all call on a dequeued chunk, as classified by
run_audio_queue_to_writer: success, a WouldBlock/TimedOut error, or any other
(fatal) error. -/
inductive WriteOutcome where
  | writeOk
  | wouldBlock
  | fatalError (msg : String)
deriving DecidableEq, Repr

/-- One scheduler event of the audio pipeline: either the capture worker
detaches one chunk and calls try_send on the queue
(run_system_audio_capture_to_queue, the inner while loop), or the writer
worker performs one recv_timeout round followed by a write of the received
chunk (run_audio_queue_to_writer loop body). -/
inductive AudioEvent where
  | captureSend (chunk : Nat)
  | writerRound (write : WriteOutcome)
deriving DecidableEq, Repr

/-- One step of the audio pipeline.
captureSend: try_send succeeds iff the queue holds fewer than
SYSTEM_AUDIO_QUEUE_CAPACITY chunks; success increments queued_chunks, a full
queue increments dropped_chunks and the chunk is dropped whole.
writerRound: when the writer already failed nothing happens; with an empty
queue recv_timeout times out; otherwise the front chunk is dequeued
(dequeued_chunks is incremented before the write), then the write either
delivers the chunk, hits WouldBlock/TimedOut (write_timeouts is incremented
and the loop continues without the chunk), or fails fatally (the writer
worker returns the error). -/
def audio_step (s : AudioPipelineState) (e : AudioEvent) : AudioPipelineState :=
  match e with
  | .captureSend chunk =>
      if s.queue.length < SYSTEM_AUDIO_QUEUE_CAPACITY then
        { s with
          queue := s.queue ++ [chunk]
          stats := { s.stats with queued_chunks := s.stats.queued_chunks + 1 } }
      else
        { s with
          stats := { s.stats with dropped_chunks := s.stats.dropped_chunks + 1 } }
  | .writerRound write =>
      if s.writer_failed then s
      else
        match s.queue with
        | [] => s
        | chunk :: rest =>
            let s1 := { s with
              queue := rest
              stats := { s.stats with
                dequeued_chunks := s.stats.dequeued_chunks + 1 } }
            match write with
            | .writeOk => { s1 with written := s1.written ++ [chunk] }
            | .wouldBlock =>
                { s1 with stats := { s1.stats with
                    write_timeouts := s1.stats.write_timeouts + 1 } }
            | .fatalError _ => { s1 with writer_failed := true }

/-- The initial audio pipeline state: all counters zero, queue empty. -/
def audio_init : AudioPipelineState :=
  ⟨⟨0, 0, 0, 0⟩, [], [], false⟩

/-- Run the audio pipeline over a sequence of scheduler events. -/
def audio_run (events : List AudioEvent) : AudioPipelineState :=
  events.foldl audio_step audio_init

/-- Inputs of one iteration of run_audio_queue_to_writer: the stop-signal
poll, the recv_timeout outcome (a chunk, a timeout, or a disconnected queue),
and the outcome of the write issued when a chunk was received. -/
structure WriterIter where
  stop_signaled : Bool
  recv : Option (Option Nat)
  write : WriteOutcome
deriving DecidableEq, Repr

/-- recording/audio_pipeline.rs (and recording.rs), fn
run_audio_queue_to_writer, driven by a script of per-iteration inputs:
recv = none models RecvTimeoutError (Timeout ⇒ continue is folded into the
same exhaustion of the entry; Disconnected is modelled by stop_signaled via
the same break), recv = some (some c) a received chunk, recv = some none a
disconnected queue. Returns the final stats, the chunks written to the sink,
and the loop result; an exhausted script leaves the loop still running and is
reported as ok. -/
def run_audio_queue_to_writer :
    List WriterIter → AudioPipelineStats → List Nat →
      AudioPipelineStats × List Nat × Except String Unit
  | [], stats, written => (stats, written, .ok ())
  | it :: rest, stats, written =>
      if it.stop_signaled then (stats, written, .ok ())
      else
        match it.recv with
        | none => run_audio_queue_to_writer rest stats written
        | some none => (stats, written, .ok ())
        | some (some chunk) =>
            let stats1 := { stats with
              dequeued_chunks := stats.dequeued_chunks + 1 }
            match it.write with
            | .writeOk =>
                run_audio_queue_to_writer rest stats1 (written ++ [chunk])
            | .wouldBlock =>
                run_audio_queue_to_writer rest
                  { stats1 with write_timeouts := stats1.write_timeouts + 1 }
                  written
            | .fatalError msg =>
                (stats1, written,
                  .error ("Failed to write system audio buffer to FFmpeg: "
                    ++ msg))

/-- Environment for the segment finalizer (recording/segments.rs): outcomes of
the filesystem operations and FFmpeg child invocations it performs. Segment
files are identified by their path strings. fileNonEmpty is the
exists-and-nonzero-length check; decodes is the segment_is_decodable probe
(FFmpeg decoding one frame to a null sink); renameSeg, copySeg and removeSeg
are the fs operations of move_segment_to_final_output for a given source
path; writeConcat writes the concat manifest for a segment list; concatSpawn
is the concat FFmpeg invocation for a segment list (error = the process could
not be started, ok b = it ran and b tells whether its exit status was
success). -/
structure FinalizeEnv where
  fileNonEmpty : String → Bool
  decodes : String → Bool
  outputExists : Bool
  removeOutput : Except String Unit
  renameSeg : String → Except String Unit
  copySeg : String → Except String Unit
  removeSeg : String → Except String Unit
  writeConcat : List String → Except String Unit
  concatSpawn : List String → Except String Bool

/-- recording/segments.rs, fn move_segment_to_final_output: replace an
existing output file, then rename; when rename fails, fall back to copy
followed by removing the source. -/
def move_segment_to_final_output (env : FinalizeEnv) (segment_path : String) :
    Except String Unit :=
  match (if env.outputExists then env.removeOutput else .ok ()) with
  | .error e => .error ("Failed to replace existing output recording: " ++ e)
  | .ok _ =>
      match env.renameSeg segment_path with
      | .ok _ => .ok ()
      | .error rename_error =>
          match env.copySeg segment_path with
          | .error copy_error =>
              .error ("Failed to move final segment into output recording. rename error: "
                ++ rename_error ++ "; copy error: " ++ copy_error)
          | .ok _ =>
              match env.removeSeg segment_path with
              | .error remove_error =>
                  .error ("Failed to remove copied segment file after fallback copy: "
                    ++ remove_error)
              | .ok _ => .ok ()

/-- recording/segments.rs, fn finalize_with_exact_segments: empty list errors,
a single segment is moved into the final output, two or more are concatenated
by writing the manifest and running FFmpeg in stream-copy concat mode. -/
def finalize_with_exact_segments (env : FinalizeEnv)
    (segment_paths : List String) : Except String Unit :=
  match segment_paths with
  | [] => .error "No recording segments were produced"
  | [segment_path] => move_segment_to_final_output env segment_path
  | _ =>
      match env.writeConcat segment_paths with
      | .error e => .error ("Failed to write FFmpeg concat file: " ++ e)
      | .ok _ =>
          match env.concatSpawn segment_paths with
          | .error e => .error ("Failed to start FFmpeg concat process: " ++ e)
          | .ok true => .ok ()
          | .ok false => .error "FFmpeg concat process failed with status: nonzero"

/-- recording/segments.rs, fn collect_non_empty_segments. -/
def collect_non_empty_segments (env : FinalizeEnv)
    (segment_paths : List String) : List String :=
  segment_paths.filter env.fileNonEmpty

/-- recording/segments.rs, fn collect_decodable_segments. -/
def collect_decodable_segments (env : FinalizeEnv)
    (segment_paths : List String) : List String :=
  segment_paths.filter env.decodes

/-- The middle-drop candidate lists of the recovery ladder
(recording/segments.rs, the loop for remove_index in 1..(len-1), run only
when more than two segments are valid): the valid list with one interior
segment removed, for each interior index in order. -/
def middle_drop_candidates (valid : List String) : List (List String) :=
  if 2 < valid.length then
    (List.range (valid.length - 2)).map
      (fun i => valid.eraseIdx (i + 1))
  else []

/-- The leading-run candidate lists of the recovery ladder
(recording/segments.rs, the loop for prefix_len in (1..len).rev()): the first
k segments, for k from len-1 down to 1. -/
def leading_candidates (valid : List String) : List (List String) :=
  ((List.range (valid.length - 1)).reverse).map
    (fun k => valid.take (k + 1))

/-- The trailing-run candidate lists of the recovery ladder
(recording/segments.rs, the loop for suffix_start in 1..len): the segments
from position k on, for k from 1 up to len-1. -/
def trailing_candidates (valid : List String) : List (List String) :=
  (List.range (valid.length - 1)).map
    (fun k => valid.drop (k + 1))

/-- One recovery loop of recording/segments.rs: try the candidate lists in
order with finalize_with_exact_segments, returning none on the first success
and otherwise the last error seen (threaded from the loop before it). -/
def run_recipes (env : FinalizeEnv) :
    List (List String) → String → Option String
  | [], last_error => some last_error
  | candidate :: rest, _last_error =>
      match finalize_with_exact_segments env candidate with
      | .ok _ => none
      | .error e => run_recipes env rest e

/-- The error message returned when every recovery recipe failed
(recording/segments.rs, the final format! of finalize_segmented_recording). -/
def finalize_failure_message (last_error : String) : String :=
  "Failed to finalize recording after trying full/middle-drop/prefix/suffix concat strategies. Last error: "
    ++ last_error

/-- recording/segments.rs, fn finalize_segmented_recording: filter the
segments to non-empty files, then to decodable files; try the full valid set
(which moves a single survivor directly); on failure run the middle-drop
loop, then the leading-run loop, then the trailing-run loop, threading the
last error; when everything failed return the wrapped last error. -/
def finalize_segmented_recording (env : FinalizeEnv)
    (segment_paths : List String) : Except String Unit :=
  let non_empty_segment_paths := collect_non_empty_segments env segment_paths
  if non_empty_segment_paths.isEmpty then
    .error "No recording segments were produced"
  else
    let valid_segment_paths :=
      collect_decodable_segments env non_empty_segment_paths
    if valid_segment_paths.isEmpty then
      .error "No valid recording segments were produced"
    else
      match finalize_with_exact_segments env valid_segment_paths with
      | .ok _ => .ok ()
      | .error initial_error =>
          match run_recipes env (middle_drop_candidates valid_segment_paths)
              initial_error with
          | none => .ok ()
          | some e1 =>
              match run_recipes env (leading_candidates valid_segment_paths)
                  e1 with
              | none => .ok ()
              | some e2 =>
                  match run_recipes env
                      (trailing_candidates valid_segment_paths) e2 with
                  | none => .ok ()
                  | some e3 => .error (finalize_failure_message e3)

/-- Recovery ladder as the spec words it: (a) drop each interior segment one
at a time, (b) leading runs of decreasing length, (c) trailing runs of
increasing start, as one ordered list of recipes. -/
def spec_recipe_ladder (valid : List String) : List (List String) :=
  middle_drop_candidates valid ++ leading_candidates valid
    ++ trailing_candidates valid

/-- First-success semantics as the spec words it: try the recipes in order,
succeed at the first one that finalizes, otherwise report the last error
(wrapped in the ladder-failure message). -/
def first_success_or_last (env : FinalizeEnv) :
    List (List String) → String → Except String Unit
  | [], last_error => .error (finalize_failure_message last_error)
  | candidate :: rest, _last_error =>
      match finalize_with_exact_segments env candidate with
      | .ok _ => .ok ()
      | .error e => first_success_or_last env rest e

/-! Concrete environments used by individual claims. -/

/-- A world where the stored handle is stale and the window enumeration
fails: IsWindow is false for every handle and EnumWindows errors. -/
def winEnvC10 : WinEnv :=
  ⟨fun _ => false, fun _ => false,
    .error "Windows API returned an error while enumerating windows",
    fun _ => .error "Failed to resolve selected window handle"⟩

/-- A world where the target window is live and restored (so the probe says
Available) but its client rectangle yields no capturable area, so region
resolution fails. -/
def winEnvC1 : WinEnv :=
  ⟨fun _ => true, fun _ => false, .ok [],
    fun _ => .error "Selected window has no capturable area"⟩

/-- The Window capture input of a session whose target is window 42. -/
def captureInputC1 : CaptureInput :=
  .Window "hwnd=42" (some 42) (some "Game")

/-- A world with an empty window list, used with settings records whose
capture_source is not recognised. -/
def winEnvC5 : WinEnv :=
  ⟨fun _ => true, fun _ => false, .ok [], fun _ => .error "unused"⟩

/-- A settings record whose capture_source is neither monitor nor window. -/
def settingsC5 : RecordingSettings :=
  ⟨"desktop", none, none, 60, 12000000, "high", false, false⟩

/-- Another settings record with an unrecognised capture_source. -/
def settingsC5b : RecordingSettings :=
  ⟨"screen", none, none, 30, 8000000, "medium", true, false⟩

/-! Theorems settling the claims. -/

/-- C10: when availability must be evaluated by title (the stored handle is
absent or stale) and the window enumeration itself fails, the probe reports
Available — not Closed and not an error — and Available is exactly what makes
a Black-mode poll tick request the switch back to Window mode, without any
live window having been verified. -/
theorem C10_enum_failure_reports_available (env : WinEnv)
    (tgt title e : String) (hwnd : Nat)
    (hstale : env.isWindow hwnd = false)
    (henum : env.enumResult = .error e) :
    evaluate_window_capture_availability env
        (.Window tgt (some hwnd) (some title)) = .Available ∧
      evaluate_window_capture_availability env
        (.Window tgt none (some title)) = .Available ∧
      poll_requested_transition .Black .Available = some .Window := by
  refine ⟨?_, ?_, rfl⟩ <;>
    simp [evaluate_window_capture_availability, evaluate_window_capture_by_hwnd,
      evaluate_window_capture_by_title, hstale, henum]

/-- C10 witness: the general statement applied to a concrete stale-handle,
failing-enumeration world. -/
theorem C10_witness :
    evaluate_window_capture_availability winEnvC10
        (.Window "hwnd=7" (some 7) (some "Game")) = .Available ∧
      evaluate_window_capture_availability winEnvC10
        (.Window "hwnd=7" none (some "Game")) = .Available ∧
      poll_requested_transition .Black .Available = some .Window :=
  C10_enum_failure_reports_available winEnvC10 "hwnd=7" "Game"
    "Windows API returned an error while enumerating windows" 7 rfl rfl

/-- C1 counterexample: in a world where the probe reports Available but
region resolution fails (the window is live and restored, yet has no
capturable area), the monolithic poll loop records the Black-to-Window
transition and the exit classification turns an encoder failure in Black
mode into Switch(Window) — in both cases merely from the Available probe,
with no successful region resolution. -/
theorem C1_counterexample :
    poll_requested_transition .Black
        (evaluate_window_capture_availability winEnvC1 captureInputC1)
        = some .Window ∧
      determine_segment_transition winEnvC1 .Black captureInputC1 false none
        false = .Switch .Window ∧
      winEnvC1.regionResolve captureInputC1
        = .error "Selected window has no capturable area" :=
  ⟨rfl, rfl, rfl⟩

/-- C1 amended: a Black-to-Window transition is recorded exactly when the
availability probe reports Available: the monolithic poll loop and the
failure-path exit classification consult the probe alone, and the refactored
poll loop additionally requires only a successful window-handle resolution —
none of them a region resolution. -/
theorem C1_black_to_window_on_available (env : WinEnv)
    (capture_input : CaptureInput)
    (h : evaluate_window_capture_availability env capture_input = .Available) :
    determine_segment_transition env .Black capture_input false none false
        = .Switch .Window ∧
      poll_requested_transition .Black
        (evaluate_window_capture_availability env capture_input)
        = some .Window ∧
      (∀ avail, poll_requested_transition .Black avail = some .Window ↔
        avail = .Available) ∧
      (∀ avail, poll_requested_transition_runner env .Black capture_input avail
          = some .Window ↔
        (avail = .Available ∧
          ∃ hw, resolve_window_handle env capture_input = some hw)) := by
  refine ⟨?_, ?_, ?_, ?_⟩
  · simp [determine_segment_transition, h]
  · simp [poll_requested_transition, h]
  · intro avail
    cases avail <;> simp [poll_requested_transition]
  · intro avail
    cases avail <;>
      cases hres : resolve_window_handle env capture_input <;>
        simp [poll_requested_transition_runner, hres]

/-- C1 witness: the amended statement applied in the concrete world where the
probe is Available while region resolution fails. -/
theorem C1_witness :
    determine_segment_transition winEnvC1 .Black captureInputC1 false none
        false = .Switch .Window ∧
      poll_requested_transition .Black
        (evaluate_window_capture_availability winEnvC1 captureInputC1)
        = some .Window :=
  ⟨(C1_black_to_window_on_available winEnvC1 captureInputC1 rfl).1,
    (C1_black_to_window_on_available winEnvC1 captureInputC1 rfl).2.1⟩

/-- C4 counterexample: the hard-kill deadline applied after a graceful stop
is the single constant FFMPEG_STOP_TIMEOUT for both a user stop and a
mode-switch stop, so the mode-switch timeout is not smaller than the user
timeout: at 5000 ms both kinds are hard-killed, at 4999 ms neither is. -/
theorem C4_counterexample :
    ¬ (stop_timeout_ms_for false (some .Window) < stop_timeout_ms_for true none)
      ∧ should_hard_kill true none false 5000 = true
      ∧ should_hard_kill false (some .Window) false 5000 = true
      ∧ should_hard_kill true none false 4999 = false
      ∧ should_hard_kill false (some .Window) false 4999 = false := by
  decide

/-- C4 amended: the hard-kill timeout after a requested graceful stop is the
same 5000 ms constant regardless of whether the stop was user-initiated or
requested for a mode-switch transition, and the kill decision depends only on
kill_sent and the elapsed time. -/
theorem C4_single_stop_timeout (stop_requested_by_user : Bool)
    (requested_transition : Option RuntimeCaptureMode) (kill_sent : Bool)
    (elapsed_ms : Nat) :
    stop_timeout_ms_for stop_requested_by_user requested_transition = 5000 ∧
      should_hard_kill stop_requested_by_user requested_transition kill_sent
          elapsed_ms
        = (!kill_sent && decide (5000 ≤ elapsed_ms)) :=
  ⟨rfl, rfl⟩

/-- C5 counterexample: a settings record whose capture_source is neither
monitor nor window does not make resolve_capture_input return an error — it
falls back to primary-monitor capture, so start_recording proceeds to start a
session. -/
theorem C5_counterexample :
    resolve_capture_input winEnvC5 settingsC5 = .ok .Monitor := by
  rfl

/-- C5 amended: for every settings record whose capture_source is neither
monitor nor window, resolve_capture_input logs a warning and returns Monitor
capture; no error is surfaced and the session starts in monitor mode. -/
theorem C5_unknown_source_falls_back (env : WinEnv)
    (settings : RecordingSettings)
    (h1 : settings.capture_source ≠ "monitor")
    (h2 : settings.capture_source ≠ "window") :
    resolve_capture_input env settings = .ok .Monitor := by
  simp [resolve_capture_input, h1, h2]

/-- C5 witness: the amended statement applied to a concrete record with
capture_source set to screen. -/
theorem C5_witness :
    resolve_capture_input winEnvC5 settingsC5b = .ok .Monitor :=
  C5_unknown_source_falls_back winEnvC5 settingsC5b (by decide) (by decide)

/-- C8: with system audio enabled the session bitrate handed to every segment
is capped at 16,000,000 bits per second — exactly 16,000,000 when the
configured effective bitrate exceeds the cap — and with audio disabled the
effective bitrate is passed through uncapped. -/
theorem C8_audio_bitrate_cap (effective_bitrate segment_index : Nat) :
    segment_bitrate (session_bitrate effective_bitrate true) segment_index
        ≤ 16000000 ∧
      (16000000 < effective_bitrate →
        segment_bitrate (session_bitrate effective_bitrate true) segment_index
          = 16000000) ∧
      segment_bitrate (session_bitrate effective_bitrate false) segment_index
        = effective_bitrate := by
  refine ⟨?_, ?_, rfl⟩
  · simp [segment_bitrate, session_bitrate]
  · intro hgt
    simp [segment_bitrate, session_bitrate]
    omega

/-- C8 witness: a 20 Mb/s configured bitrate with audio enabled is encoded at
exactly 16 Mb/s in every segment. -/
theorem C8_witness :
    segment_bitrate (session_bitrate 20000000 true) 0 = 16000000 :=
  (C8_audio_bitrate_cap 20000000 0).2.1 (by decide)

/-- C9: stop_recording errors when no recording is active; during an active
session it returns the current output path, and a second call in quick
succession returns the same path without sending another stop signal; when
the session is already stopping the state is left untouched. -/
theorem C9_stop_recording_idempotent (s : RecordingState)
    (output_path : String) (hrec : s.is_recording = true)
    (hpath : s.current_output_path = some output_path) :
    (stop_recording s).result = .ok output_path ∧
      (stop_recording (stop_recording s).state).result = .ok output_path ∧
      (stop_recording (stop_recording s).state).signal_sent = false ∧
      (s.is_stopping = true →
        (stop_recording s).signal_sent = false ∧ (stop_recording s).state = s) ∧
      (∀ s2 : RecordingState, s2.is_recording = false →
        (stop_recording s2).result = .error "No active recording to stop") := by
  refine ⟨?_, ?_, ?_, ?_, ?_⟩
  · cases hstop : s.is_stopping <;> simp [stop_recording, hrec, hpath, hstop]
  · cases hstop : s.is_stopping <;> simp [stop_recording, hrec, hpath, hstop]
  · cases hstop : s.is_stopping <;> simp [stop_recording, hrec, hpath, hstop]
  · intro hstop
    simp [stop_recording, hrec, hpath, hstop]
  · intro s2 h2
    simp [stop_recording, h2]

/-- C9 witness: double stop on a concrete active session returns the same
output path twice and only the first call signals the channel. -/
theorem C9_witness :
    (stop_recording ⟨true, false, some "out.mp4", true⟩).result
        = .ok "out.mp4" ∧
      (stop_recording
          (stop_recording ⟨true, false, some "out.mp4", true⟩).state).result
        = .ok "out.mp4" ∧
      (stop_recording
          (stop_recording ⟨true, false, some "out.mp4", true⟩).state).signal_sent
        = false :=
  ⟨(C9_stop_recording_idempotent ⟨true, false, some "out.mp4", true⟩
      "out.mp4" rfl rfl).1,
    (C9_stop_recording_idempotent ⟨true, false, some "out.mp4", true⟩
      "out.mp4" rfl rfl).2.1,
    (C9_stop_recording_idempotent ⟨true, false, some "out.mp4", true⟩
      "out.mp4" rfl rfl).2.2.1⟩

/-- Each audio pipeline step only ever adds to the four counters. -/
theorem audio_step_statsLe (s : AudioPipelineState) (e : AudioEvent) :
    statsLe s.stats (audio_step s e).stats := by
  cases e with
  | captureSend chunk =>
      by_cases hlt : s.queue.length < SYSTEM_AUDIO_QUEUE_CAPACITY <;>
        simp [audio_step, statsLe, hlt]
  | writerRound write =>
      cases hf : s.writer_failed with
      | true =>
          simp [audio_step, statsLe, hf]
      | false =>
          cases hq : s.queue with
          | nil => simp [audio_step, statsLe, hf, hq]
          | cons chunk rest =>
              cases write <;> simp [audio_step, statsLe, hf, hq]

/-- statsLe is transitive. -/
theorem statsLe_trans {a b c : AudioPipelineStats} (hab : statsLe a b)
    (hbc : statsLe b c) : statsLe a c := by
  obtain ⟨h1, h2, h3, h4⟩ := hab
  obtain ⟨g1, g2, g3, g4⟩ := hbc
  exact ⟨h1.trans g1, h2.trans g2, h3.trans g3, h4.trans g4⟩

/-- Counters never decrease along any run continuation. -/
theorem audio_foldl_statsLe (events : List AudioEvent)
    (s : AudioPipelineState) :
    statsLe s.stats (events.foldl audio_step s).stats := by
  induction events generalizing s with
  | nil => exact ⟨le_refl _, le_refl _, le_refl _, le_refl _⟩
  | cons e rest ih =>
      exact statsLe_trans (audio_step_statsLe s e) (ih (audio_step s e))

/-- Each step preserves the conservation law: chunks dequeued plus chunks
still buffered equal chunks queued. -/
theorem audio_step_conservation (s : AudioPipelineState) (e : AudioEvent)
    (h : s.stats.dequeued_chunks + s.queue.length = s.stats.queued_chunks) :
    (audio_step s e).stats.dequeued_chunks + (audio_step s e).queue.length
      = (audio_step s e).stats.queued_chunks := by
  cases e with
  | captureSend chunk =>
      by_cases hlt : s.queue.length < SYSTEM_AUDIO_QUEUE_CAPACITY <;>
        simp [audio_step, hlt] <;> omega
  | writerRound write =>
      cases hf : s.writer_failed with
      | true =>
          simpa [audio_step, hf] using h
      | false =>
          cases hq : s.queue with
          | nil => simpa [audio_step, hf, hq] using h
          | cons chunk rest =>
              cases write <;> simp [audio_step, hf, hq] <;>
                simp [hq] at h <;> omega

/-- The conservation law holds in every state reached from a preserved
start state. -/
theorem audio_foldl_conservation (events : List AudioEvent)
    (s : AudioPipelineState)
    (h : s.stats.dequeued_chunks + s.queue.length = s.stats.queued_chunks) :
    (events.foldl audio_step s).stats.dequeued_chunks
        + (events.foldl audio_step s).queue.length
      = (events.foldl audio_step s).stats.queued_chunks := by
  induction events generalizing s with
  | nil => exact h
  | cons e rest ih =>
      exact ih (audio_step s e) (audio_step_conservation s e h)

/-- The capture-worker event trace that saturates the bounded queue and then
keeps producing: 513 chunks arrive while the writer never drains. -/
def eventsC2 : List AudioEvent :=
  List.replicate 513 (.captureSend 0)

/-- Closed form of a capture-only run: the first 256 chunks fill the bounded
queue and are counted as queued, every further chunk is counted as dropped. -/
theorem audio_run_saturating_enqueues (n : Nat) :
    List.foldl audio_step audio_init
        (List.replicate n (AudioEvent.captureSend 0))
      = ⟨⟨min n 256, 0, n - min n 256, 0⟩,
          List.replicate (min n 256) 0, [], false⟩ := by
  induction n with
  | zero => rfl
  | succ n ih =>
      rw [List.replicate_succ', List.foldl_append, ih]
      by_cases hlt : n < 256
      · have h1 : min n 256 = n := Nat.min_eq_left (le_of_lt hlt)
        have h2 : min (n + 1) 256 = n + 1 := Nat.min_eq_left hlt
        simp only [audio_step, List.foldl_cons, List.foldl_nil, h1, h2,
          List.length_replicate, SYSTEM_AUDIO_QUEUE_CAPACITY]
        rw [if_pos hlt, ← List.replicate_succ', Nat.sub_self, Nat.sub_self]
      · have h1 : min n 256 = 256 := Nat.min_eq_right (by omega)
        have h2 : min (n + 1) 256 = 256 := Nat.min_eq_right (by omega)
        simp only [audio_step, List.foldl_cons, List.foldl_nil, h1, h2,
          List.length_replicate, SYSTEM_AUDIO_QUEUE_CAPACITY]
        rw [if_neg (by omega),
          (by omega : n - 256 + 1 = n + 1 - 256)]

/-- C2 counterexample: once the writer falls behind for long enough, drops
exceed the queued total: after 513 capture attempts against a full pipeline,
queued_chunks is 256 and dropped_chunks is 257 with nothing dequeued, so
dequeued_chunks + dropped_chunks ≤ queued_chunks is violated. -/
theorem C2_counterexample :
    (audio_run eventsC2).stats = ⟨256, 0, 257, 0⟩ ∧
      ¬ ((audio_run eventsC2).stats.dequeued_chunks
          + (audio_run eventsC2).stats.dropped_chunks
        ≤ (audio_run eventsC2).stats.queued_chunks) := by
  have h : (audio_run eventsC2).stats = ⟨256, 0, 257, 0⟩ := by
    simp only [audio_run, eventsC2]
    rw [audio_run_saturating_enqueues 513]
    decide
  refine ⟨h, ?_⟩
  rw [h]
  decide

/-- C2 amended: at every point the counters satisfy
dequeued_chunks + queue depth = queued_chunks (hence
dequeued_chunks ≤ queued_chunks), and all four counters are monotonically
non-decreasing along the run; the bound involving dropped_chunks does not
hold in general. -/
theorem C2_stats_invariant (events pre post : List AudioEvent) :
    (audio_run events).stats.dequeued_chunks + (audio_run events).queue.length
        = (audio_run events).stats.queued_chunks ∧
      (audio_run events).stats.dequeued_chunks
        ≤ (audio_run events).stats.queued_chunks ∧
      statsLe (audio_run pre).stats (audio_run (pre ++ post)).stats := by
  refine ⟨?_, ?_, ?_⟩
  · exact audio_foldl_conservation events audio_init rfl
  · have h := audio_foldl_conservation events audio_init rfl
    simp only [audio_run]
    omega
  · simp only [audio_run]
    rw [List.foldl_append]
    exact audio_foldl_statsLe post (List.foldl audio_step audio_init pre)

/-- The single writer iteration in which a dequeued chunk hits a
WouldBlock/TimedOut write. -/
def writerScriptC3 : List WriterIter :=
  [⟨false, some (some 7), .wouldBlock⟩]

/-- C3 counterexample: when the write of dequeued chunk 7 times out, the
writer counts the timeout and keeps running, but the chunk is gone — it is
in neither the queue nor the sink afterwards, so its bytes were discarded
rather than retained for later delivery. -/
theorem C3_counterexample :
    run_audio_queue_to_writer writerScriptC3 ⟨0, 0, 0, 0⟩ []
        = (⟨0, 1, 0, 1⟩, [], .ok ()) ∧
      audio_step ⟨⟨1, 0, 0, 0⟩, [7], [], false⟩ (.writerRound .wouldBlock)
        = ⟨⟨1, 1, 0, 1⟩, [], [], false⟩ :=
  ⟨rfl, rfl⟩

/-- C3 amended: a WouldBlock/TimedOut write makes the writer increment
write_timeouts and continue without aborting, but the dequeued chunk is
discarded — it leaves the queue and is never written to the sink — so audio
data is lost to write timeouts as well as to queue-capacity backpressure. -/
theorem C3_timeout_discards_chunk (s : AudioPipelineState) (chunk : Nat)
    (rest : List Nat) (hq : s.queue = chunk :: rest)
    (hw : s.writer_failed = false) :
    audio_step s (.writerRound .wouldBlock)
        = { s with
            queue := rest
            stats := { s.stats with
              dequeued_chunks := s.stats.dequeued_chunks + 1
              write_timeouts := s.stats.write_timeouts + 1 } } ∧
      (∀ (script : List WriterIter) (stats : AudioPipelineStats)
          (written : List Nat),
        run_audio_queue_to_writer
            (⟨false, some (some chunk), .wouldBlock⟩ :: script) stats written
          = run_audio_queue_to_writer script
              { stats with
                dequeued_chunks := stats.dequeued_chunks + 1
                write_timeouts := stats.write_timeouts + 1 }
              written) := by
  constructor
  · simp [audio_step, hq, hw]
  · intro script stats written
    rfl

/-- C3 witness: the amended statement applied to the concrete state holding
exactly chunk 7. -/
theorem C3_witness :
    audio_step ⟨⟨1, 0, 0, 0⟩, [7], [], false⟩ (.writerRound .wouldBlock)
        = ⟨⟨1, 1, 0, 1⟩, [], [], false⟩ ∧
      run_audio_queue_to_writer
          (⟨false, some (some 7), .wouldBlock⟩ :: []) ⟨0, 0, 0, 0⟩ []
        = run_audio_queue_to_writer [] ⟨0, 1, 0, 1⟩ [] :=
  ⟨(C3_timeout_discards_chunk ⟨⟨1, 0, 0, 0⟩, [7], [], false⟩ 7 [] rfl rfl).1,
    (C3_timeout_discards_chunk ⟨⟨1, 0, 0, 0⟩, [7], [], false⟩ 7 [] rfl
      rfl).2 [] ⟨0, 0, 0, 0⟩ []⟩

/-- Once the failure counter is at least 2, the next failed segment is the
last one the session runs. -/
theorem session_run_stops_at_third_failure (mode : RuntimeCaptureMode)
    (f : Nat) (r : SegmentRunResult) (rest : List SegmentRunResult)
    (hr : r.ffmpeg_succeeded = false) (hf : 2 ≤ f) :
    session_segments_run mode f (r :: rest) = 1 := by
  simp only [session_segments_run, hr, Bool.false_eq_true, if_false]
  rw [if_pos (by omega)]

/-- Unfolding equation: a failed segment below the budget whose transition is
Stop ends the loop after itself. -/
theorem ssr_failed_stop (mode : RuntimeCaptureMode) (f : Nat)
    (r : SegmentRunResult) (rest : List SegmentRunResult)
    (hr : r.ffmpeg_succeeded = false) (hb : ¬ 3 ≤ f + 1)
    (ht : r.transition = .Stop) :
    session_segments_run mode f (r :: rest) = 1 := by
  simp only [session_segments_run, hr, Bool.false_eq_true, if_false]
  rw [if_neg hb, ht]

/-- Unfolding equation: a failed segment below the budget whose transition is
Switch continues in the new mode with the counter incremented. -/
theorem ssr_failed_switch (mode m : RuntimeCaptureMode) (f : Nat)
    (r : SegmentRunResult) (rest : List SegmentRunResult)
    (hr : r.ffmpeg_succeeded = false) (hb : ¬ 3 ≤ f + 1)
    (ht : r.transition = .Switch m) :
    session_segments_run mode f (r :: rest)
      = 1 + session_segments_run m (f + 1) rest := by
  simp only [session_segments_run, hr, Bool.false_eq_true, if_false]
  rw [if_neg hb, ht]

/-- Unfolding equation: a failed segment below the budget restarting the same
non-Monitor mode continues with the counter incremented. -/
theorem ssr_failed_restart (mode : RuntimeCaptureMode) (f : Nat)
    (r : SegmentRunResult) (rest : List SegmentRunResult)
    (hr : r.ffmpeg_succeeded = false) (hb : ¬ 3 ≤ f + 1)
    (ht : r.transition = .RestartSameMode)
    (hmon : mode ≠ RuntimeCaptureMode.Monitor) :
    session_segments_run mode f (r :: rest)
      = 1 + session_segments_run mode (f + 1) rest := by
  simp only [session_segments_run, hr, Bool.false_eq_true, if_false]
  rw [if_neg hb, ht]
  simp [hmon]

/-- Unfolding equation: a failed segment below the budget restarting Monitor
mode ends the loop. -/
theorem ssr_failed_restart_monitor (f : Nat) (r : SegmentRunResult)
    (rest : List SegmentRunResult) (hr : r.ffmpeg_succeeded = false)
    (hb : ¬ 3 ≤ f + 1) (ht : r.transition = .RestartSameMode) :
    session_segments_run RuntimeCaptureMode.Monitor f (r :: rest) = 1 := by
  simp only [session_segments_run, hr, Bool.false_eq_true, if_false]
  rw [if_neg hb, ht]
  simp

/-- With one failure on the counter and two more failed segments ahead, at
most two further segments run. -/
theorem session_run_two_failures_bound (mode : RuntimeCaptureMode) (f : Nat)
    (r2 r3 : SegmentRunResult) (rest : List SegmentRunResult)
    (h2 : r2.ffmpeg_succeeded = false) (h3 : r3.ffmpeg_succeeded = false)
    (hf : 1 ≤ f) :
    session_segments_run mode f (r2 :: r3 :: rest) ≤ 2 := by
  by_cases hbig : 3 ≤ f + 1
  · rw [session_run_stops_at_third_failure mode f r2 (r3 :: rest) h2 (by omega)]
    omega
  · cases ht : r2.transition with
    | Stop =>
        rw [ssr_failed_stop mode f r2 (r3 :: rest) h2 hbig ht]
        omega
    | Switch m =>
        rw [ssr_failed_switch mode m f r2 (r3 :: rest) h2 hbig ht,
          session_run_stops_at_third_failure m (f + 1) r3 rest h3 (by omega)]
    | RestartSameMode =>
        by_cases hmon : mode = RuntimeCaptureMode.Monitor
        · subst hmon
          rw [ssr_failed_restart_monitor f r2 (r3 :: rest) h2 hbig ht]
          omega
        · rw [ssr_failed_restart mode f r2 (r3 :: rest) h2 hbig ht hmon,
            session_run_stops_at_third_failure mode (f + 1) r3 rest h3
              (by omega)]

/-- With one failure on the counter, a continuing failed segment followed by
a third failed segment makes exactly two further segments run. -/
theorem session_run_second_failure (mode : RuntimeCaptureMode)
    (r2 r3 : SegmentRunResult) (rest : List SegmentRunResult)
    (h2 : r2.ffmpeg_succeeded = false) (h3 : r3.ffmpeg_succeeded = false)
    (hc : session_continues mode r2) :
    session_segments_run mode 1 (r2 :: r3 :: rest) = 2 := by
  obtain ⟨hstop, hmon⟩ := hc
  have hb : ¬ 3 ≤ (1 : Nat) + 1 := by omega
  cases ht : r2.transition with
  | Stop => exact absurd ht hstop
  | Switch m =>
      rw [ssr_failed_switch mode m 1 r2 (r3 :: rest) h2 hb ht,
        session_run_stops_at_third_failure m 2 r3 rest h3 (by omega)]
  | RestartSameMode =>
      rw [ssr_failed_restart mode 1 r2 (r3 :: rest) h2 hb ht (hmon ht),
        session_run_stops_at_third_failure mode 2 r3 rest h3 (by omega)]

/-- C6: whenever three consecutive segment runs report encoder failure the
session main loop ends without starting another segment: starting from a
reset counter, the loop runs exactly those three segments regardless of the
transition the last of them requested, and with any counter value at most
three segments remain. -/
theorem C6_three_failures_end_session (mode : RuntimeCaptureMode) (f : Nat)
    (r1 r2 r3 : SegmentRunResult) (rest : List SegmentRunResult)
    (h1 : r1.ffmpeg_succeeded = false) (h2 : r2.ffmpeg_succeeded = false)
    (h3 : r3.ffmpeg_succeeded = false) :
    session_segments_run mode f (r1 :: r2 :: r3 :: rest) ≤ 3 ∧
      (session_continues mode r1 →
        session_continues (mode_after mode r1) r2 →
        session_segments_run mode 0 (r1 :: r2 :: r3 :: rest) = 3) := by
  constructor
  · by_cases hbig : 3 ≤ f + 1
    · rw [session_run_stops_at_third_failure mode f r1 (r2 :: r3 :: rest) h1
        (by omega)]
      omega
    · cases ht : r1.transition with
      | Stop =>
          rw [ssr_failed_stop mode f r1 (r2 :: r3 :: rest) h1 hbig ht]
          omega
      | Switch m =>
          rw [ssr_failed_switch mode m f r1 (r2 :: r3 :: rest) h1 hbig ht]
          have hb := session_run_two_failures_bound m (f + 1) r2 r3 rest h2 h3
            (by omega)
          omega
      | RestartSameMode =>
          by_cases hmon : mode = RuntimeCaptureMode.Monitor
          · subst hmon
            rw [ssr_failed_restart_monitor f r1 (r2 :: r3 :: rest) h1 hbig ht]
            omega
          · rw [ssr_failed_restart mode f r1 (r2 :: r3 :: rest) h1 hbig ht
              hmon]
            have hb := session_run_two_failures_bound mode (f + 1) r2 r3 rest
              h2 h3 (by omega)
            omega
  · intro hc1 hc2
    obtain ⟨hstop, hmon⟩ := hc1
    have hb : ¬ 3 ≤ (0 : Nat) + 1 := by omega
    cases ht : r1.transition with
    | Stop => exact absurd ht hstop
    | Switch m =>
        have hm : mode_after mode r1 = m := by simp [mode_after, ht]
        rw [ssr_failed_switch mode m 0 r1 (r2 :: r3 :: rest) h1 hb ht,
          session_run_second_failure m r2 r3 rest h2 h3 (hm ▸ hc2)]
    | RestartSameMode =>
        have hm : mode_after mode r1 = mode := by simp [mode_after, ht]
        rw [ssr_failed_restart mode 0 r1 (r2 :: r3 :: rest) h1 hb ht (hmon ht),
          session_run_second_failure mode r2 r3 rest h2 h3 (hm ▸ hc2)]

/-- A failed segment whose exit classification asked to restart in the same
mode. -/
def rFailC6 : SegmentRunResult := ⟨.RestartSameMode, false, false⟩

/-- A successful stopping segment, present after the three failures to show
it is never started. -/
def rOkC6 : SegmentRunResult := ⟨.Stop, true, true⟩

/-- C6 witness: a Window session whose first three segments fail runs exactly
three segments and never reaches the fourth. -/
theorem C6_witness :
    session_segments_run .Window 0 [rFailC6, rFailC6, rFailC6, rOkC6] = 3 :=
  (C6_three_failures_end_session .Window 0 rFailC6 rFailC6 rFailC6 [rOkC6]
      rfl rfl rfl).2
    ⟨by decide, by decide⟩ ⟨by decide, by decide⟩

/-- Running recipes over a concatenation is running the first list and, if it
never succeeded, running the second list threaded with its last error. -/
theorem run_recipes_append (env : FinalizeEnv) (xs ys : List (List String))
    (last_error : String) :
    run_recipes env (xs ++ ys) last_error
      = (match run_recipes env xs last_error with
        | none => none
        | some e => run_recipes env ys e) := by
  induction xs generalizing last_error with
  | nil => rfl
  | cons c cs ih =>
      rcases hc : finalize_with_exact_segments env c with e | v <;>
        simp only [List.cons_append, run_recipes, hc]
      exact ih e

/-- first_success_or_last is run_recipes with the loop outcome mapped to the
final result: success, or the wrapped last error. -/
theorem first_success_or_last_eq_run_recipes (env : FinalizeEnv)
    (recipes : List (List String)) (last_error : String) :
    first_success_or_last env recipes last_error
      = (match run_recipes env recipes last_error with
        | none => .ok ()
        | some e => .error (finalize_failure_message e)) := by
  induction recipes generalizing last_error with
  | nil => rfl
  | cons c cs ih =>
      rcases hc : finalize_with_exact_segments env c with e | v <;>
        simp only [first_success_or_last, run_recipes, hc]
      exact ih e

/-- A list with a nonempty filter is nonempty. -/
theorem ne_nil_of_filter_ne_nil {p : String → Bool} {l : List String}
    (h : l.filter p ≠ []) : l ≠ [] := by
  intro hl
  rw [hl] at h
  exact h rfl

/-- C7: the finalizer filters to non-empty then decodable segments; a single
surviving segment that moves cleanly finalizes the recording, the move being
rename with copy-then-remove as fallback; and when the concat of the full
valid set fails, the result is exactly the first success over the recovery
ladder — each interior segment dropped one at a time, then leading runs of
decreasing length, then trailing runs of increasing start — with the wrapped
last error when every recipe fails. -/
theorem C7_finalize_recovery_ladder (env : FinalizeEnv)
    (segment_paths : List String) :
    (collect_decodable_segments env
          (collect_non_empty_segments env segment_paths)
        = (segment_paths.filter env.fileNonEmpty).filter env.decodes) ∧
      (∀ p,
        collect_decodable_segments env
            (collect_non_empty_segments env segment_paths) = [p] →
        move_segment_to_final_output env p = .ok () →
        finalize_segmented_recording env segment_paths = .ok ()) ∧
      (∀ p rename_error, env.outputExists = false →
        env.renameSeg p = .error rename_error →
        env.copySeg p = .ok () → env.removeSeg p = .ok () →
        move_segment_to_final_output env p = .ok ()) ∧
      (∀ e0,
        collect_decodable_segments env
            (collect_non_empty_segments env segment_paths) ≠ [] →
        finalize_with_exact_segments env
            (collect_decodable_segments env
              (collect_non_empty_segments env segment_paths))
          = .error e0 →
        finalize_segmented_recording env segment_paths
          = first_success_or_last env
              (spec_recipe_ladder
                (collect_decodable_segments env
                  (collect_non_empty_segments env segment_paths)))
              e0) := by
  refine ⟨rfl, ?_, ?_, ?_⟩
  · intro p hv hmove
    have hne : collect_non_empty_segments env segment_paths ≠ [] := by
      apply ne_nil_of_filter_ne_nil (p := env.decodes)
      rw [show (collect_non_empty_segments env segment_paths).filter
          env.decodes
        = collect_decodable_segments env
            (collect_non_empty_segments env segment_paths) from rfl, hv]
      simp
    have hne2 : (collect_non_empty_segments env segment_paths).isEmpty
        = false := by
      cases h : collect_non_empty_segments env segment_paths with
      | nil => exact absurd h hne
      | cons a l => rfl
    simp only [finalize_segmented_recording, hne2, Bool.false_eq_true,
      if_false, hv]
    simp [finalize_with_exact_segments, hmove]
  · intro p rename_error hout hrename hcopy hremove
    simp [move_segment_to_final_output, hout, hrename, hcopy, hremove]
  · intro e0 hvne herr
    have hne : collect_non_empty_segments env segment_paths ≠ [] :=
      ne_nil_of_filter_ne_nil (p := env.decodes) hvne
    have hne2 : (collect_non_empty_segments env segment_paths).isEmpty
        = false := by
      cases h : collect_non_empty_segments env segment_paths with
      | nil => exact absurd h hne
      | cons a l => rfl
    have hve2 : (collect_decodable_segments env
        (collect_non_empty_segments env segment_paths)).isEmpty = false := by
      cases h : collect_decodable_segments env
          (collect_non_empty_segments env segment_paths) with
      | nil => exact absurd h hvne
      | cons a l => rfl
    simp only [finalize_segmented_recording, hne2, Bool.false_eq_true,
      if_false, hve2, herr]
    rw [spec_recipe_ladder, first_success_or_last_eq_run_recipes,
      run_recipes_append, run_recipes_append]
    rcases h1 : run_recipes env
        (middle_drop_candidates
          (collect_decodable_segments env
            (collect_non_empty_segments env segment_paths)))
        e0 with _ | e1
    · simp [h1]
    · simp only [h1]
      rcases h2 : run_recipes env
          (leading_candidates
            (collect_decodable_segments env
              (collect_non_empty_segments env segment_paths)))
          e1 with _ | e2
      · simp [h2]
      · simp [h2]

/-- A finalizer world with three valid segments in which the full concat run
exits with a failing status while any two-segment concat succeeds. -/
def envC7 : FinalizeEnv :=
  ⟨fun _ => true, fun _ => true, false, .ok (), fun _ => .ok (),
    fun _ => .ok (), fun _ => .ok (), fun _ => .ok (),
    fun l => .ok (decide (l.length = 2))⟩

/-- C7 witness: with three valid segments whose full concat fails, the
finalizer result is exactly the first success over the spec recovery
ladder. -/
theorem C7_witness :
    finalize_segmented_recording envC7 ["a", "b", "c"]
      = first_success_or_last envC7
          (spec_recipe_ladder
            (collect_decodable_segments envC7
              (collect_non_empty_segments envC7 ["a", "b", "c"])))
          "FFmpeg concat process failed with status: nonzero" :=
  (C7_finalize_recovery_ladder envC7 ["a", "b", "c"]).2.2.2
    "FFmpeg concat process failed with status: nonzero" (by decide) rfl

end FloorPoV
